import Mathlib

/-!
# Shallow embedding of the cromwell-tools client library

This file embeds the credential-resolution state machine
(`cromwell_tools/cromwell_auth.py`), the polling `wait` loop and status
parsing (`cromwell_tools/cromwell_api.py`), the workflow-manifest
composition and label validation (`cromwell_tools/utilities.py`), and the
retry policy configured on the legacy submission entry point
(`cromwell_tools/_cromwell_api.py`), and proves the specification's
claims about them.

Conventions used throughout:

* Python exceptions are modelled by the inductive `PyError`; a function
  that can raise returns `Except PyError α`.
* Python dictionaries are modelled as association lists in insertion
  order; `dictSet`/`dictUpdate` mirror `dict.__setitem__`/`dict.update`
  (overwriting an existing key keeps its position, a fresh key is
  appended).
* External I/O (file reads, HTTP downloads, OAuth token minting, the
  wall clock) is supplied by explicit environment parameters, so every
  definition stays executable.
* Byte strings (`bytes` / the payload of an `io.BytesIO` buffer) are
  modelled as Lean `String`s; only their identity matters to the claims.
-/

/-- Model of the Python exceptions raised by the embedded code.

`valueError`, `typeError` and `keyError` model the Python builtins of
the same names; `exception` models the builtin base class `Exception`
(raised bare by `CromwellAPI.wait` on timeout).

`workflowFailedError` and `workflowUnknownError` model
`cromwell_tools.exceptions.WorkflowFailedError` /
`WorkflowUnknownError`; the `exceptions` module itself is not part of
the provided sources (only its callers in `cromwell_api.py` are), so
these two constructors are modelled from the spec's error-kind list in
§7, which describes them as plain typed errors carrying a message.

`workflowTimeoutError` is modelled from the spec: §7 names a
`WorkflowTimeoutError` kind for the poller deadline, but no code in the
provided sources constructs such a class — the timeout raise site at
`cromwell_api.py:323` raises the builtin `Exception` instead, which is
modelled by `exception`. -/
inductive PyError where
  | valueError (msg : String)
  | typeError (msg : String)
  | keyError (key : String)
  | workflowFailedError (msg : String)
  | workflowUnknownError (msg : String)
  | workflowTimeoutError (msg : String)
  | exception (msg : String)
  deriving Repr, DecidableEq

/-- Python truthiness of an optional string argument (`None` and the
empty string are falsy, every other string is truthy). -/
def pyTruthy : Option String → Bool
  | none => false
  | some s => s ≠ ""

/-- `s.startswith(pre)`, computed on the character lists (the
built-in `String.startsWith` is defined by well-founded recursion and
does not evaluate inside `decide`). -/
def strStartsWith (s pre : String) : Bool := pre.data.isPrefixOf s.data

/-- `s.endswith(suf)`, computed on the character lists. -/
def strEndsWith (s suf : String) : Bool := suf.data.isSuffixOf s.data

/-- `s.lower()`, computed on the character lists. -/
def strToLower (s : String) : String := String.mk (s.data.map Char.toLower)

/-- `str.strip('/')`: removes every leading and trailing `'/'`. -/
def stripSlashes (s : String) : String :=
  let l := s.toList.dropWhile (· = '/')
  String.mk ((l.reverse.dropWhile (· = '/')).reverse)

/-- A `requests.auth.HTTPBasicAuth` object: a username/password pair. -/
structure BasicAuth where
  username : String
  password : String
  deriving Repr, DecidableEq

/-- A bearer-token header dictionary, e.g.
`[("authorization", "Bearer ya29...")]`. -/
abbrev Header := List (String × String)

/-- `CromwellAuth.__init__`'s stored state: the normalized url, the
optional bearer header, the optional HTTP Basic credentials, whether an
OAuth credential handle was retained (`oauth_credentials`), and the
optional raw service-account key content (a parsed flat JSON object,
modelled as an association list of string fields). -/
structure CromwellAuth where
  url : String
  header : Option Header
  auth : Option BasicAuth
  oauth_credentials : Bool
  service_key_content : Option (List (String × String))
  deriving Repr, DecidableEq

/-- `CromwellAuth._validate_auth`: a supplied header dictionary must
contain an `"authorization"` key (case-insensitively) or `ValueError`
is raised; the isinstance checks on `dict` / `HTTPBasicAuth` hold by
construction in this typed model.  The no-credentials warning has no
effect on the result. -/
def validateAuth (header : Option Header) (auth : Option BasicAuth) :
    Except PyError Unit :=
  match header, auth with
  | some h, _ =>
      if (h.map (fun kv => strToLower kv.1)).contains "authorization" then
        Except.ok ()
      else
        Except.error (PyError.valueError
          "The header must have an \"Authorization\" or \"authorization\" key!")
  | none, _ => Except.ok ()

/-- `CromwellAuth._validate_url`: the url must be a string starting with
`"http"`, and is returned with leading/trailing slashes stripped
(`url.strip('/')`); otherwise `ValueError`. -/
def validateUrl (url : String) : Except PyError String :=
  if strStartsWith url "http" then Except.ok (stripSlashes url)
  else Except.error (PyError.valueError
    "url must be an str pointing to an http(s) endpoint.")

/-- `CromwellAuth.__init__`: runs `_validate_auth` then `_validate_url`
and stores the fields. -/
def CromwellAuth.init (url : String) (header : Option Header)
    (auth : Option BasicAuth) (oauth_credentials : Bool)
    (service_key_content : Option (List (String × String))) :
    Except PyError CromwellAuth := do
  let _ ← validateAuth header auth
  let u ← validateUrl url
  Except.ok ⟨u, header, auth, oauth_credentials, service_key_content⟩

/-- External collaborators of the credential resolver: reading and
parsing a secrets file, reading/parsing a service-account key file, and
minting an OAuth bearer token from a key file (the google-auth
`Credentials.refresh`/`apply` round trip).  Supplied as total functions
from the file path. -/
structure AuthEnv where
  secretsUsername : String → String
  secretsPassword : String → String
  secretsUrl : String → String
  keyContent : String → List (String × String)
  bearerToken : String → String

/-- `CromwellAuth.from_service_account_key_file` (path branch, the one
`harmonize_credentials` exercises): loads the key content, mints a
bearer token, applies it to a fresh header dictionary, and constructs
the object with no basic auth, a retained OAuth credential handle, and
the raw key content. -/
def fromServiceAccountKeyFile (env : AuthEnv)
    (service_account_key url : String) : Except PyError CromwellAuth :=
  CromwellAuth.init url
    (some [("authorization", "Bearer " ++ env.bearerToken service_account_key)])
    none true (some (env.keyContent service_account_key))

/-- `CromwellAuth.from_secrets_file`: reads `username`, `password` and
`url` from the JSON secrets file and builds a Basic-auth object. -/
def fromSecretsFile (env : AuthEnv) (secrets_file : String) :
    Except PyError CromwellAuth :=
  CromwellAuth.init (env.secretsUrl secrets_file) none
    (some ⟨env.secretsUsername secrets_file, env.secretsPassword secrets_file⟩)
    false none

/-- `CromwellAuth.from_user_password`: builds a Basic-auth object
directly from the given username/password/url. -/
def fromUserPassword (username password url : String) :
    Except PyError CromwellAuth :=
  CromwellAuth.init url none (some ⟨username, password⟩) false none

/-- `CromwellAuth.from_no_authentication`: anonymous context. -/
def fromNoAuthentication (url : String) : Except PyError CromwellAuth :=
  CromwellAuth.init url none none false none

/-- A single quote character, used when rendering Python `repr`. -/
def pyQuote1 : String := String.singleton (Char.ofNat 39)

/-- Python `repr` of a `bool`. -/
def pyBoolRepr (b : Bool) : String := if b then "True" else "False"

/-- Python `repr` of the `credentials` dictionary literal built inside
`harmonize_credentials`, in its insertion order. -/
def credentialsRepr (sak sf up na : Bool) : String :=
  "\x7b" ++ pyQuote1 ++ "service_account_key" ++ pyQuote1 ++ ": " ++ pyBoolRepr sak ++
  ", " ++ pyQuote1 ++ "secrets_file" ++ pyQuote1 ++ ": " ++ pyBoolRepr sf ++
  ", " ++ pyQuote1 ++ "user_password" ++ pyQuote1 ++ ": " ++ pyBoolRepr up ++
  ", " ++ pyQuote1 ++ "no_auth" ++ pyQuote1 ++ ": " ++ pyBoolRepr na ++ "\x7d"

/-- The `ValueError` message raised by `harmonize_credentials` when the
four shape booleans do not sum to exactly 1. -/
def ambiguityMsg (sak sf up na : Bool) : String :=
  "Exactly one set of credentials must be passed.\nCredentials: " ++
    credentialsRepr sak sf up na

/-- Shape boolean (a) of `harmonize_credentials`:
`all((service_account_key, url))`. -/
def shapeServiceAccountKey (url service_account_key : Option String) : Bool :=
  pyTruthy service_account_key && pyTruthy url

/-- Shape boolean (b): `True if secrets_file else False`. -/
def shapeSecretsFile (secrets_file : Option String) : Bool :=
  pyTruthy secrets_file

/-- Shape boolean (c): `all((username, password, url))`. -/
def shapeUserPassword (username password url : Option String) : Bool :=
  pyTruthy username && pyTruthy password && pyTruthy url

/-- Shape boolean (d):
`not any((service_account_key, secrets_file, username, password)) and url`. -/
def shapeNoAuth (username password url secrets_file service_account_key :
    Option String) : Bool :=
  !(pyTruthy service_account_key || pyTruthy secrets_file ||
    pyTruthy username || pyTruthy password) && pyTruthy url

/-- `CromwellAuth.harmonize_credentials`: computes the four shape
booleans, raises `ValueError` naming all four shapes unless exactly one
is true, and otherwise dispatches to the constructor of the true
shape. -/
def harmonizeCredentials (env : AuthEnv)
    (username password url secrets_file service_account_key :
      Option String := none) : Except PyError CromwellAuth :=
  let sak := shapeServiceAccountKey url service_account_key
  let sf := shapeSecretsFile secrets_file
  let up := shapeUserPassword username password url
  let na := shapeNoAuth username password url secrets_file service_account_key
  if sak.toNat + sf.toNat + up.toNat + na.toNat ≠ 1 then
    Except.error (PyError.valueError (ambiguityMsg sak sf up na))
  else if sak then
    fromServiceAccountKeyFile env (service_account_key.getD "") (url.getD "")
  else if sf then
    fromSecretsFile env (secrets_file.getD "")
  else if up then
    fromUserPassword (username.getD "") (password.getD "") (url.getD "")
  else
    fromNoAuthentication (url.getD "")

/-- The tuple `_failed_statuses = ('Failed', 'Aborted', 'Aborting')` of
`cromwell_api.py`. -/
def failedStatuses : List String := ["Failed", "Aborted", "Aborting"]

/-- One HTTP response of the status endpoint, as far as
`_parse_workflow_status` inspects it: the status code and the
`'status'` field of the JSON body. -/
structure StatusResponse where
  status_code : Nat
  status : String
  deriving Repr, DecidableEq

/-- `CromwellAPI._parse_workflow_status`: a non-200 response raises
`WorkflowUnknownError`, otherwise the `'status'` field of the body is
returned. -/
def parseWorkflowStatus (r : StatusResponse) : Except PyError String :=
  if r.status_code ≠ 200 then
    Except.error (PyError.workflowUnknownError
      ("Status could not be determined, endpoint returned " ++
        toString r.status_code))
  else Except.ok r.status

/-- The body of one polling round of `CromwellAPI.wait` (the `for uuid
in workflow_ids` loop): `round` maps each uuid to its status response
this round; `acc` is the running `all_succeeded` flag (initially
`true`).  A parse failure or a terminal-failure status aborts the round
with the corresponding error; otherwise the final `all_succeeded` flag
is returned. -/
def pollRound (round : String → StatusResponse) :
    List String → Bool → Except PyError Bool
  | [], acc => Except.ok acc
  | uuid :: rest, acc =>
    match parseWorkflowStatus (round uuid) with
    | Except.error e => Except.error e
    | Except.ok status =>
      if status ∈ failedStatuses then
        Except.error (PyError.workflowFailedError
          ("Workflow " ++ uuid ++ " returned status " ++ status))
      else
        pollRound round rest (acc && (status = "Succeeded" : Bool))

/-- Two-digit rendering of a number below 100, as in `str(timedelta)`'s
minute and second fields. -/
def pad2 (n : Nat) : String :=
  if n < 10 then "0" ++ toString n else toString n

/-- `str(datetime.timedelta(minutes=m))` for a non-negative whole
number of minutes, e.g. `"0:01:00"`, `"2:05:00"`,
`"1 day, 0:00:00"`. -/
def timedeltaStrOfMinutes (m : Nat) : String :=
  let days := m / 1440
  let hms := toString (m % 1440 / 60) ++ ":" ++ pad2 (m % 60) ++ ":00"
  if days = 0 then hms
  else if days = 1 then "1 day, " ++ hms
  else toString days ++ " days, " ++ hms

/-- The message of the bare `Exception` raised by `CromwellAPI.wait`
when the timeout is exceeded:
`'Unfinished workflows after %s minutes.' % timeout` (the subsequent
`.format(timeout)` is a no-op since the string holds no placeholder). -/
def timeoutExceptionMsg (timeout_minutes : Nat) : String :=
  "Unfinished workflows after " ++ timedeltaStrOfMinutes timeout_minutes ++
    " minutes."

/-- The loop of `CromwellAPI.wait`, with wall-clock time made explicit:
status calls are instantaneous and each `time.sleep(poll_interval_seconds)`
advances the clock, so the elapsed time when round `n` begins is
`n * pollSec` seconds.  `env n uuid` is the status response for `uuid`
during round `n`.  Round structure, in source order: raise the timeout
`Exception` if strictly more than `timeoutSec` seconds have elapsed;
poll every uuid (`pollRound`); return `''` if all succeeded; otherwise
sleep and loop.  `fuel` bounds the number of rounds the model executes;
`none` means the loop was still running after `fuel` rounds.  The
comparison `datetime.now() - start > timeout` becomes
`n * pollSec > tmin * 60` (both sides in seconds, strict). -/
def waitLoop (env : Nat → String → StatusResponse) (ids : List String)
    (tmin pollSec : Nat) : Nat → Nat → Option (Except PyError String)
  | 0, _ => none
  | fuel + 1, n =>
    if n * pollSec > tmin * 60 then
      some (Except.error (PyError.exception (timeoutExceptionMsg tmin)))
    else
      match pollRound (env n) ids true with
      | Except.error e => some (Except.error e)
      | Except.ok true => some (Except.ok "")
      | Except.ok false => waitLoop env ids tmin pollSec fuel (n + 1)

/-- `CromwellAPI.wait(workflow_ids, auth, timeout_minutes,
poll_interval_seconds, ...)`: `start = datetime.now()`,
`timeout = timedelta(minutes=int(timeout_minutes))`, then the polling
loop.  (`verbose` only controls printing and is dropped.) -/
def waitModel (env : Nat → String → StatusResponse) (ids : List String)
    (timeout_minutes poll_interval_seconds fuel : Nat) :
    Option (Except PyError String) :=
  waitLoop env ids timeout_minutes poll_interval_seconds fuel 0

/-- Modelled from the spec: the per-attempt wait of the tenacity
`wait_exponential(multiplier, max)` strategy configured on the legacy
`CromwellAPI.submit` — "exponentially increasing backoff (starting at 1
time-unit, doubling, capped at a maximum per-attempt wait)".  The wait
after failed attempt `n` (1-based) is `multiplier * 2^(n-1)`, capped at
`maxWait`.  tenacity itself is an external dependency, not part of the
provided sources; only the configuration
`wait_exponential(multiplier=1, max=10)` is. -/
def backoffWait (multiplier maxWait n : Nat) : Nat :=
  min (multiplier * 2 ^ (n - 1)) maxWait

/-- Modelled from the spec: the tenacity retry loop configured on the
legacy `CromwellAPI.submit` by
`@retry(reraise=True, wait=wait_exponential(multiplier=1, max=10),
stop=stop_after_delay(20))` — "on any failure of the HTTP submission
call, retry ..., bounded by a total elapsed-time budget (not a fixed
attempt count), re-raising the last failure if the budget is
exhausted".  `call n` is the outcome of attempt `n` (1-based);
`elapsed` is the time since the first attempt (attempts are
instantaneous, sleeps advance the clock).  After a failed attempt the
stop condition `elapsed >= budget` is checked; if it holds the last
failure is re-raised (`reraise=True`), otherwise the loop sleeps for
the backoff wait and retries.  `fuel` bounds the modelled attempts. -/
def retryCall {E A : Type} (call : Nat → Except E A)
    (multiplier maxWait budget : Nat) :
    Nat → Nat → Nat → Option (Except E A)
  | 0, _, _ => none
  | fuel + 1, attempt, elapsed =>
    match call attempt with
    | Except.ok a => some (Except.ok a)
    | Except.error e =>
      if budget ≤ elapsed then some (Except.error e)
      else
        retryCall call multiplier maxWait budget fuel (attempt + 1)
          (elapsed + backoffWait multiplier maxWait attempt)

/-- The retry policy with the exact configuration of the legacy
`CromwellAPI.submit` decorator: `multiplier=1`, `max=10`,
`stop_after_delay(20)`, starting at attempt 1 with no elapsed time. -/
def submitWithRetry {E A : Type} (call : Nat → Except E A) (fuel : Nat) :
    Option (Except E A) :=
  retryCall call 1 10 20 fuel 1 0

/-- `utilities._CROMWELL_LABEL_LENGTH`. -/
def cromwellLabelLength : Nat := 63

/-- The text of `utilities._CROMWELL_LABEL_KEY_REGEX` (used verbatim in
error messages). -/
def cromwellLabelKeyRegex : String := "[a-z]([-a-z0-9]*[a-z0-9])?"

/-- The text of `utilities._CROMWELL_LABEL_VALUE_REGEX`. -/
def cromwellLabelValueRegex : String := "([a-z0-9]*[-a-z0-9]*[a-z0-9])?"

/-- `c ∈ [a-z]`. -/
def isLowerAlpha (c : Char) : Bool := 'a' ≤ c && c ≤ 'z'

/-- `c ∈ [a-z0-9]`. -/
def isLowerAlnum (c : Char) : Bool := isLowerAlpha c || ('0' ≤ c && c ≤ '9')

/-- `c ∈ [-a-z0-9]`. -/
def isLabelChar (c : Char) : Bool := c = '-' || isLowerAlnum c

/-- `re.fullmatch('[a-z]([-a-z0-9]*[a-z0-9])?', s)` compiled by hand:
one char of `[a-z]`, optionally followed by a run of `[-a-z0-9]` whose
last character is in `[a-z0-9]` (since `[a-z0-9] ⊆ [-a-z0-9]`, the
group matches exactly the non-empty `[-a-z0-9]`-runs ending in
`[a-z0-9]`). -/
def keyFullmatch (s : String) : Bool :=
  match s.toList with
  | [] => false
  | c :: rest =>
    isLowerAlpha c &&
      (rest.isEmpty ||
        (rest.all isLabelChar && isLowerAlnum (rest.getLastD c)))

/-- `re.fullmatch('([a-z0-9]*[-a-z0-9]*[a-z0-9])?', s)` compiled by
hand: the empty string, or a run of `[-a-z0-9]` whose last character is
in `[a-z0-9]` (the leading `[a-z0-9]*` is subsumed by
`[-a-z0-9]*`). -/
def valueFullmatch (s : String) : Bool :=
  match s.toList with
  | [] => true
  | l => l.all isLabelChar && isLowerAlnum (l.getLastD 'a')

/-- `utilities._content_checker(regex, content)`: returns an error line
if `re.fullmatch(regex, content)` fails, else the empty string.  The
compiled matcher for the regex text is passed alongside it. -/
def contentChecker (matcher : String → Bool) (regex content : String) : String :=
  if matcher content then ""
  else "Invalid label: " ++ content ++ " did not match the regex " ++ regex ++ ".\n"

/-- `utilities._length_checker(length, content)`: returns an error line
if `len(content) > length`, else the empty string. -/
def lengthChecker (length : Nat) (content : String) : String :=
  if content.length > length then
    "Invalid label: " ++ content ++ " has " ++ toString content.length ++
      " characters. The maximum is " ++ toString length ++ ".\n"
  else ""

/-- The four checker lines `validate_cromwell_label` appends for one
`(label_key, label_value)` pair, in source order: key pattern, value
pattern, key length, value length. -/
def labelPairErrMsg (kv : String × String) : String :=
  contentChecker keyFullmatch cromwellLabelKeyRegex kv.1 ++
  contentChecker valueFullmatch cromwellLabelValueRegex kv.2 ++
  lengthChecker cromwellLabelLength kv.1 ++
  lengthChecker cromwellLabelLength kv.2

/-- The accumulated `err_msg` of `validate_cromwell_label`: starts
empty and grows by the four checker lines of every pair, in dictionary
iteration order. -/
def labelErrMsg (labels : List (String × String)) : String :=
  labels.foldl (fun acc kv => acc ++ labelPairErrMsg kv) ""

/-- `utilities.validate_cromwell_label` on a label dictionary (the
`str`/`bytes`/`BytesIO` input forms are JSON-decoded to the same
dictionary by the external `json` module before this loop runs):
accumulates all violations over all pairs and raises a single
`ValueError` carrying the concatenated message iff it is non-empty. -/
def validateCromwellLabel (labels : List (String × String)) :
    Except PyError Unit :=
  if labelErrMsg labels ≠ "" then
    Except.error (PyError.valueError (labelErrMsg labels))
  else Except.ok ()

/-- A Python value passed where `Union[str, io.BytesIO]` is expected.
`pystr` is a `str` path/URL, `buf` an `io.BytesIO` holding the given
bytes, `pyNone` is `None`, and `pyInt` an `int` (a representative
non-string, non-buffer type). -/
inductive PyFile where
  | pystr (s : String)
  | buf (content : String)
  | pyNone
  | pyInt (n : Int)
  deriving Repr, DecidableEq

/-- Python truthiness of a `PyFile` (`io.BytesIO` objects are always
truthy; `''`, `None` and `0` are falsy). -/
def PyFile.truthy : PyFile → Bool
  | .pystr s => s ≠ ""
  | .buf _ => true
  | .pyNone => false
  | .pyInt n => n ≠ 0

/-- `repr(type(x))` for a `PyFile`, as interpolated into `download`'s
`TypeError` message. -/
def PyFile.typeRepr : PyFile → String
  | .pystr _ => "<class " ++ pyQuote1 ++ "str" ++ pyQuote1 ++ ">"
  | .buf _ => "<class " ++ pyQuote1 ++ "_io.BytesIO" ++ pyQuote1 ++ ">"
  | .pyNone => "<class " ++ pyQuote1 ++ "NoneType" ++ pyQuote1 ++ ">"
  | .pyInt _ => "<class " ++ pyQuote1 ++ "int" ++ pyQuote1 ++ ">"

/-- `utilities.download(url)`: raises `TypeError` unless the argument
is a `str`; otherwise resolves it to bytes — via an HTTP GET when it
starts with `'http'`, else by reading the local file.  Both transports
are external and are supplied by `env`, a total map from the reference
string to the fetched bytes (successful fetches; fetch failures are not
exercised by any claim). -/
def downloadModel (env : String → String) : PyFile → Except PyError String
  | .pystr s => Except.ok (env s)
  | f => Except.error (PyError.typeError
      ("The url/path must be a (str) type, not " ++ f.typeRepr ++ "!"))

/-- `utilities._download_to_BytesIO_if_string(file)`: a `str` is
downloaded and wrapped in a fresh `io.BytesIO`; an `io.BytesIO` — or
any falsy value (`not file`) — is returned unchanged; everything else
raises `TypeError`. -/
def download_to_BytesIO_if_string (env : String → String) (file : PyFile) :
    Except PyError PyFile :=
  match file with
  | .pystr s => (downloadModel env (.pystr s)).map .buf
  | .buf b => Except.ok (.buf b)
  | f => if !f.truthy then Except.ok f
         else Except.error (PyError.typeError
           "Please make sure to pass in Union[str, io.BytesIO] types!")

/-- `url.split('/')[-1]`: the characters after the last `'/'` (the
whole string when it holds no `'/'`). -/
def lastSegment (s : String) : String :=
  String.mk (s.data.foldl (fun acc c => if c = '/' then [] else acc ++ [c]) [])

/-- `utilities.download_to_map(urls)`: resolves each url in order into
an url → contents mapping (the Python `dict` is modelled as an
association list in insertion order; the claims only apply it to lists
of distinct references). -/
def download_to_map (env : String → String) (urls : List String) :
    List (String × String) :=
  urls.map (fun u => (u, env u))

/-- One value of the submission-manifest dictionary: the result of
`_download_to_BytesIO_if_string` (a `PyFile`), an in-memory zip built
by `make_zip_in_memory` (kept symbolic as its entry list, since the zip
byte format lives in the external `zipfile` module), or a plain string
scalar. -/
inductive ManifestPart where
  | file (f : PyFile)
  | zips (entries : List (String × String))
  | scalar (s : String)
  deriving Repr, DecidableEq

/-- `utilities.make_zip_in_memory(url_to_contents)`: one zip entry per
mapping pair, named by the last path segment of the url. -/
def make_zip_in_memory (url_to_contents : List (String × String)) : ManifestPart :=
  ManifestPart.zips (url_to_contents.map (fun p => (lastSegment p.1, p.2)))

/-- The `inputs_files` argument of `prepare_workflow_manifest`:
`Union[List[Union[str, io.BytesIO]], str, io.BytesIO]`. -/
inductive InputsArg where
  | one (f : PyFile)
  | many (l : List PyFile)
  deriving Repr, DecidableEq

/-- Python truthiness of an optional `inputs_files` argument (a list is
truthy iff non-empty). -/
def inputsTruthy : Option InputsArg → Bool
  | none => false
  | some (.one f) => f.truthy
  | some (.many l) => !l.isEmpty

/-- The `dependencies` argument of `prepare_workflow_manifest`:
`Union[str, List[str], io.BytesIO]`. -/
inductive DepsArg where
  | strRef (s : String)
  | bufRef (content : String)
  | listRef (l : List String)
  deriving Repr, DecidableEq

/-- Python truthiness of an optional `dependencies` argument. -/
def depsTruthy : Option DepsArg → Bool
  | none => false
  | some (.strRef s) => s ≠ ""
  | some (.bufRef _) => true
  | some (.listRef l) => !l.isEmpty

/-- The `ValueError` message for a bare non-zip string dependency. -/
def depsValueErrorMsg : String :=
  "The dependency file path must point to a \".zip\" file! Or you may want to provide a list of WDL file(s)."

/-- The dependencies branch of `prepare_workflow_manifest` (the body of
`if dependencies:`), returning the `workflowDependencies` part. -/
def resolveDependencies (env : String → String) (deps : DepsArg) :
    Except PyError ManifestPart :=
  match deps with
  | .listRef l =>
    if l.length = 1 && strEndsWith (l.headD "") ".zip" then
      (download_to_BytesIO_if_string env (.pystr (l.headD ""))).map ManifestPart.file
    else
      Except.ok (make_zip_in_memory (download_to_map env l))
  | .strRef s =>
    if !strEndsWith s ".zip" then
      Except.error (PyError.valueError depsValueErrorMsg)
    else
      (download_to_BytesIO_if_string env (.pystr s)).map ManifestPart.file
  | .bufRef b =>
    (download_to_BytesIO_if_string env (.buf b)).map ManifestPart.file

/-- The numbered-inputs loop of `prepare_workflow_manifest`:
`enumerate(inputs_files)` with key `'workflowInputs'` at index 0 and
`'workflowInputs_{idx+1}'` afterwards. -/
def inputsParts (env : String → String) :
    List PyFile → Nat → Except PyError (List (String × ManifestPart))
  | [], _ => Except.ok []
  | f :: rest, idx => do
    let b ← download_to_BytesIO_if_string env f
    let key := if idx = 0 then "workflowInputs"
               else "workflowInputs_" ++ toString (idx + 1)
    let tail ← inputsParts env rest (idx + 1)
    Except.ok ((key, ManifestPart.file b) :: tail)

/-- `utilities.prepare_workflow_manifest`: builds the submission
manifest dictionary (modelled as an association list in insertion
order).  Source order of the parts: `workflowSource`, the numbered
inputs, `workflowOptions`, `labels`, `workflowDependencies`,
`collectionName`, `workflowOnHold` (`json.dumps(on_hold)`). -/
def prepare_workflow_manifest (env : String → String) (wdl_file : PyFile)
    (inputs_files : Option InputsArg := none)
    (options_file : Option PyFile := none)
    (dependencies : Option DepsArg := none)
    (label_file : Option PyFile := none)
    (collection_name : Option String := none)
    (on_hold : Bool := false) :
    Except PyError (List (String × ManifestPart)) := do
  let src ← download_to_BytesIO_if_string env wdl_file
  let inputs ←
    if inputsTruthy inputs_files then
      match inputs_files with
      | some (.many l) => inputsParts env l 0
      | some (.one f) => inputsParts env [f] 0
      | none => Except.ok []
    else Except.ok []
  let opts ←
    match options_file with
    | some f =>
      if f.truthy then
        (download_to_BytesIO_if_string env f).map
          (fun b => [("workflowOptions", ManifestPart.file b)])
      else Except.ok []
    | none => Except.ok []
  let labs ←
    match label_file with
    | some f =>
      if f.truthy then
        (download_to_BytesIO_if_string env f).map
          (fun b => [("labels", ManifestPart.file b)])
      else Except.ok []
    | none => Except.ok []
  let deps ←
    match dependencies with
    | some d =>
      if depsTruthy (some d) then
        (resolveDependencies env d).map
          (fun p => [("workflowDependencies", p)])
      else Except.ok []
    | none => Except.ok []
  let coll :=
    match collection_name with
    | some c => if c ≠ "" then [("collectionName", ManifestPart.scalar c)] else []
    | none => []
  Except.ok ([("workflowSource", ManifestPart.file src)] ++ inputs ++ opts ++ labs ++
    deps ++ coll ++ [("workflowOnHold", ManifestPart.scalar (if on_hold then "true" else "false"))])

/-- A JSON value stored in a workflow-options dictionary. -/
inductive JVal where
  | jstr (s : String)
  | jnum (n : Int)
  | jbool (b : Bool)
  deriving Repr, DecidableEq

/-- An options dictionary (parsed JSON object), modelled as an
association list in insertion order. -/
abbrev OptionsDict := List (String × JVal)

/-- `dict.__setitem__`: overwriting an existing key keeps its position,
a fresh key is appended at the end. -/
def dictSet (d : OptionsDict) (k : String) (v : JVal) : OptionsDict :=
  if d.any (fun p => p.1 = k) then
    d.map (fun p => if p.1 = k then (k, v) else p)
  else d ++ [(k, v)]

/-- `dict.update(upd)`: sets every key of `upd` in order. -/
def dictUpdate (d : OptionsDict) (upd : List (String × JVal)) : OptionsDict :=
  upd.foldl (fun acc kv => dictSet acc kv.1 kv.2) d

/-- `json.dumps` of a flat JSON object whose values are strings free of
escape-requiring characters (the shape of a service-account key
document), in insertion order. -/
def jsonDumpsFlat (m : List (String × String)) : String :=
  "\x7b" ++
    String.intercalate ", "
      (m.map (fun p => "\"" ++ p.1 ++ "\": \"" ++ p.2 ++ "\"")) ++
  "\x7d"

/-- The default execution bucket
`f'gs://{google_project}-cromwell-execution/caas-cromwell-executions'`. -/
def defaultExecutionBucket (google_project : String) : String :=
  "gs://" ++ google_project ++ "-cromwell-execution/caas-cromwell-executions"

/-- `utilities.compose_oauth_options_for_jes_backend_cromwell(auth,
cromwell_options_file, execution_bucket)`, at the level of the parsed
options object (the function's `json.loads` of the incoming `BytesIO`
and final `json.dumps`/`BytesIO` wrap are the external `json`/`io`
round trip; `None` incoming options become the empty object `{}`).
Reads `project_id` (and, inside the update literal, `client_email`)
from `auth.service_key_content` — a missing field is a `KeyError` —
and updates the options with the four JES keys, in the update-literal's
order: `jes_gcs_root` (the execution bucket, defaulted when the
argument is absent or falsy), `google_project`,
`user_service_account_json` (the whole key content re-serialized as a
JSON string), `google_compute_service_account` (the key's
`client_email`). -/
def compose_oauth_options_for_jes_backend_cromwell
    (service_key_content : List (String × String))
    (cromwell_options : Option OptionsDict := none)
    (execution_bucket : Option String := none) :
    Except PyError OptionsDict :=
  let options_json := cromwell_options.getD []
  match service_key_content.lookup "project_id" with
  | none => Except.error (PyError.keyError "project_id")
  | some google_project =>
    match service_key_content.lookup "client_email" with
    | none => Except.error (PyError.keyError "client_email")
    | some client_email =>
      let bucket :=
        match execution_bucket with
        | some b => if b = "" then defaultExecutionBucket google_project else b
        | none => defaultExecutionBucket google_project
      Except.ok (dictUpdate options_json
        [("jes_gcs_root", JVal.jstr bucket),
         ("google_project", JVal.jstr google_project),
         ("user_service_account_json", JVal.jstr (jsonDumpsFlat service_key_content)),
         ("google_compute_service_account", JVal.jstr client_email)])

/-- The JES-options attachment step of `CromwellAPI.submit`
(`cromwell_api.py:272-277`): when `auth.service_key_content` is truthy
(present and a non-empty dict), the manifest's `workflowOptions` value
(`manifest.get('workflowOptions')`, absent → `None`) is replaced by the
composed augmented options; otherwise the manifest options are left
untouched. -/
def submitAttachJesOptions (auth : CromwellAuth)
    (manifestOptions : Option OptionsDict) :
    Except PyError (Option OptionsDict) :=
  match auth.service_key_content with
  | none => Except.ok manifestOptions
  | some key =>
    if key.isEmpty then Except.ok manifestOptions
    else
      (compose_oauth_options_for_jes_backend_cromwell key manifestOptions none).map some

/-- Written from the words of claim C7 (refinement comparison only, not
from the source): a full match of the claim's key pattern
`^[a-z][-a-z0-9]*[a-z0-9]?$` — one `[a-z]`, then any run of
`[-a-z0-9]`, then an optional `[a-z0-9]`; since the optional final
class is contained in `[-a-z0-9]`, this language is exactly "first char
in `[a-z]`, all later chars in `[-a-z0-9]`". -/
def claimKeyMatch (s : String) : Bool :=
  match s.toList with
  | [] => false
  | c :: rest => isLowerAlpha c && rest.all isLabelChar

/-- `a` occurs contiguously inside `b` (substring containment on the
underlying character lists). -/
def strInfix (a b : String) : Prop := a.data <:+: b.data

instance (a b : String) : Decidable (strInfix a b) := by
  unfold strInfix; infer_instance

/-- A concrete credential-resolver environment used to instantiate
theorems with hypotheses. -/
def authEnvW : AuthEnv where
  secretsUsername := fun _ => "svc-user"
  secretsPassword := fun _ => "svc-pass"
  secretsUrl := fun _ => "https://secrets.example.org/"
  keyContent := fun _ => [("project_id", "proj-1"), ("client_email", "sa@proj-1.iam")]
  bearerToken := fun _ => "tok123"

/-- A concrete resource-loading environment (reference ↦ bytes) used to
instantiate theorems with hypotheses. -/
def envBytes : String → String := fun s => "bytes:" ++ s

/-- A concrete status environment: `wf2` is `Failed`, everything else
`Succeeded`, every round. -/
def envTwoWf : Nat → String → StatusResponse :=
  fun _ id => if id = "wf2" then ⟨200, "Failed"⟩ else ⟨200, "Succeeded"⟩

/-- A concrete status environment: every workflow reports `Running`
forever. -/
def envRunning : Nat → String → StatusResponse := fun _ _ => ⟨200, "Running"⟩

/-- A concrete service-account key content used to instantiate
theorems with hypotheses. -/
def keyW : List (String × String) :=
  [("project_id", "proj-1"), ("client_email", "sa@proj-1.iam")]

/-- A concrete OAuth-shaped `CromwellAuth` (bearer header, no basic
auth, retained key content) used to instantiate theorems with
hypotheses. -/
def authW : CromwellAuth :=
  ⟨"https://cromwell.caas", some [("authorization", "Bearer tok123")], none,
    true, some keyW⟩

/-- Concrete caller-supplied workflow options used to instantiate
theorems with hypotheses. -/
def optsW : OptionsDict :=
  [("custom_option", JVal.jstr "v"), ("google_project", JVal.jstr "stale")]

deriving instance DecidableEq for Except

/-! ## Helper lemmas -/

theorem init_ok_fields (url : String) (header : Option Header)
    (auth : Option BasicAuth) (o : Bool)
    (skc : Option (List (String × String))) (ctx : CromwellAuth)
    (h : CromwellAuth.init url header auth o skc = Except.ok ctx) :
    ctx.header = header ∧ ctx.auth = auth ∧ ctx.oauth_credentials = o ∧
      ctx.service_key_content = skc := by
  unfold CromwellAuth.init at h
  simp only [bind, Except.bind] at h
  cases h1 : validateAuth header auth <;> rw [h1] at h
  · exact absurd h (by simp)
  · cases h2 : validateUrl url <;> rw [h2] at h <;> simp_all
    obtain rfl := h.symm
    simp

/-! ## C1 — credential shape booleans and dispatch -/

/-- C1: for every combination of the optional inputs,
`harmonize_credentials` computes the four shape booleans
(service-account key + url; secrets file; username + password + url;
url with none of the credential inputs), raises a `ValueError` whose
message names the four detected shapes whenever the booleans do not
sum to exactly one, and otherwise returns the `CromwellAuth` built by
the constructor of the unique true shape. -/
theorem harmonize_credentials_shape_dispatch (env : AuthEnv)
    (username password url secrets_file service_account_key : Option String) :
    (let sak := shapeServiceAccountKey url service_account_key
     let sf := shapeSecretsFile secrets_file
     let up := shapeUserPassword username password url
     let na := shapeNoAuth username password url secrets_file service_account_key
     (sak.toNat + sf.toNat + up.toNat + na.toNat ≠ 1 →
        harmonizeCredentials env username password url secrets_file service_account_key =
          Except.error (PyError.valueError (ambiguityMsg sak sf up na))) ∧
     (sak.toNat + sf.toNat + up.toNat + na.toNat = 1 → sak = true →
        harmonizeCredentials env username password url secrets_file service_account_key =
          fromServiceAccountKeyFile env (service_account_key.getD "") (url.getD "")) ∧
     (sak.toNat + sf.toNat + up.toNat + na.toNat = 1 → sf = true →
        harmonizeCredentials env username password url secrets_file service_account_key =
          fromSecretsFile env (secrets_file.getD "")) ∧
     (sak.toNat + sf.toNat + up.toNat + na.toNat = 1 → up = true →
        harmonizeCredentials env username password url secrets_file service_account_key =
          fromUserPassword (username.getD "") (password.getD "") (url.getD "")) ∧
     (sak.toNat + sf.toNat + up.toNat + na.toNat = 1 → na = true →
        harmonizeCredentials env username password url secrets_file service_account_key =
          fromNoAuthentication (url.getD ""))) := by
  simp only [harmonizeCredentials]
  set sak := shapeServiceAccountKey url service_account_key with hsak
  set sf := shapeSecretsFile secrets_file with hsf
  set up := shapeUserPassword username password url with hup
  set na := shapeNoAuth username password url secrets_file service_account_key with hna
  cases sak <;> cases sf <;> cases up <;> cases na <;> simp

/-- Witness for C1: supplying both a secrets file and the
username/password/url triple detects two shapes and raises the
ambiguity `ValueError` naming them. -/
theorem harmonize_credentials_shape_dispatch_witness :
    harmonizeCredentials authEnvW (some "alice") (some "pw")
        (some "http://cromwell.org") (some "secrets.json") none =
      Except.error (PyError.valueError (ambiguityMsg false true true false)) :=
  (harmonize_credentials_shape_dispatch authEnvW (some "alice") (some "pw")
      (some "http://cromwell.org") (some "secrets.json") none).1 (by decide)

/-! ## C9 — never basic auth and bearer header simultaneously -/

/-- C9: every `CromwellAuth` produced by any of the four constructors
or by `harmonize_credentials` has at most one of \x7bHTTP Basic
credentials, bearer header\x7d set — never both simultaneously. -/
theorem cromwell_auth_basic_bearer_exclusive (env : AuthEnv) :
    (∀ k u ctx, fromServiceAccountKeyFile env k u = Except.ok ctx →
        ¬(ctx.auth.isSome ∧ ctx.header.isSome)) ∧
    (∀ s ctx, fromSecretsFile env s = Except.ok ctx →
        ¬(ctx.auth.isSome ∧ ctx.header.isSome)) ∧
    (∀ u p w ctx, fromUserPassword u p w = Except.ok ctx →
        ¬(ctx.auth.isSome ∧ ctx.header.isSome)) ∧
    (∀ w ctx, fromNoAuthentication w = Except.ok ctx →
        ¬(ctx.auth.isSome ∧ ctx.header.isSome)) ∧
    (∀ username password url secrets_file service_account_key ctx,
        harmonizeCredentials env username password url secrets_file
          service_account_key = Except.ok ctx →
        ¬(ctx.auth.isSome ∧ ctx.header.isSome)) := by
  have hsak : ∀ k u ctx, fromServiceAccountKeyFile env k u = Except.ok ctx →
      ¬(ctx.auth.isSome ∧ ctx.header.isSome) := by
    intro k u ctx h hc
    obtain ⟨_, ha, _, _⟩ := init_ok_fields _ _ _ _ _ _ h
    simp [ha] at hc
  have hsf : ∀ s ctx, fromSecretsFile env s = Except.ok ctx →
      ¬(ctx.auth.isSome ∧ ctx.header.isSome) := by
    intro s ctx h hc
    obtain ⟨hh, _, _, _⟩ := init_ok_fields _ _ _ _ _ _ h
    simp [hh] at hc
  have hup : ∀ u p w ctx, fromUserPassword u p w = Except.ok ctx →
      ¬(ctx.auth.isSome ∧ ctx.header.isSome) := by
    intro u p w ctx h hc
    obtain ⟨hh, _, _, _⟩ := init_ok_fields _ _ _ _ _ _ h
    simp [hh] at hc
  have hna : ∀ w ctx, fromNoAuthentication w = Except.ok ctx →
      ¬(ctx.auth.isSome ∧ ctx.header.isSome) := by
    intro w ctx h hc
    obtain ⟨hh, _, _, _⟩ := init_ok_fields _ _ _ _ _ _ h
    simp [hh] at hc
  refine ⟨hsak, hsf, hup, hna, ?_⟩
  intro username password url secrets_file service_account_key ctx h
  unfold harmonizeCredentials at h
  dsimp only at h
  split at h
  · exact absurd h (by simp)
  · split at h
    · exact hsak _ _ _ h
    · split at h
      · exact hsf _ _ h
      · split at h
        · exact hup _ _ _ _ h
        · exact hna _ _ h

/-- Witness for C9: the Basic-auth constructor at a concrete input
yields a context with basic credentials and no bearer header. -/
theorem cromwell_auth_basic_bearer_exclusive_witness :
    ¬((CromwellAuth.mk "http://cromwell.org" none
          (some ⟨"alice", "pw"⟩) false none).auth.isSome ∧
      (CromwellAuth.mk "http://cromwell.org" none
          (some ⟨"alice", "pw"⟩) false none).header.isSome) :=
  (cromwell_auth_basic_bearer_exclusive authEnvW).2.2.1 "alice" "pw"
    "http://cromwell.org" _ (by decide)

theorem pollRound_all_succeeded (r : String → StatusResponse) :
    ∀ (ids : List String) (acc : Bool),
      (∀ id ∈ ids, r id = ⟨200, "Succeeded"⟩) →
      pollRound r ids acc = Except.ok acc := by
  intro ids
  induction ids with
  | nil => intro acc _; rfl
  | cons hd tl ih =>
    intro acc hall
    have hhd := hall hd (by simp)
    simp [pollRound, parseWorkflowStatus, hhd, failedStatuses,
      ih acc (fun i hi => hall i (List.mem_cons_of_mem hd hi))]

theorem pollRound_ok_true_inv (r : String → StatusResponse) :
    ∀ (ids : List String) (acc : Bool),
      pollRound r ids acc = Except.ok true →
      acc = true ∧ ∀ id ∈ ids, r id = ⟨200, "Succeeded"⟩ := by
  intro ids
  induction ids with
  | nil =>
    intro acc h
    simp [pollRound] at h
    simp [h]
  | cons hd tl ih =>
    intro acc h
    simp only [pollRound] at h
    cases hp : parseWorkflowStatus (r hd) with
    | error e => rw [hp] at h; exact absurd h (by simp)
    | ok st =>
      rw [hp] at h
      dsimp only at h
      by_cases hf : st ∈ failedStatuses
      · rw [if_pos hf] at h; exact absurd h (by simp)
      · rw [if_neg hf] at h
        obtain ⟨hacc, htl⟩ := ih _ h
        have h200 : (r hd).status_code = 200 ∧ st = (r hd).status := by
          unfold parseWorkflowStatus at hp
          by_cases hc : (r hd).status_code = 200
          · rw [if_neg (by simpa using hc)] at hp
            exact ⟨hc, by simpa using (Except.ok.inj hp).symm⟩
          · rw [if_pos (by simpa using hc)] at hp
            exact absurd hp (by simp)
        have hsucc : st = "Succeeded" := by
          cases hst : (st = "Succeeded" : Bool) with
          | true => exact of_decide_eq_true hst
          | false => simp [hst] at hacc
        refine ⟨by simpa [hsucc] using hacc, ?_⟩
        intro i hi
        rcases List.mem_cons.mp hi with rfl | hi
        · have hs : (r i).status = "Succeeded" := by rw [← h200.2, hsucc]
          have hc : (r i).status_code = 200 := h200.1
          cases hr : r i with
          | mk c t =>
            rw [hr] at hs hc
            simp only at hs hc
            rw [hs, hc]
        · exact htl i hi

theorem pollRound_terminal_failure (r : String → StatusResponse) :
    ∀ (ids : List String) (acc : Bool),
      (∀ id ∈ ids, (r id).status_code = 200) →
      (∃ id ∈ ids, (r id).status ∈ failedStatuses) →
      ∃ m, pollRound r ids acc = Except.error (PyError.workflowFailedError m) := by
  intro ids
  induction ids with
  | nil => simp
  | cons hd tl ih =>
    intro acc hcode hex
    have h200 := hcode hd (by simp)
    by_cases hf : (r hd).status ∈ failedStatuses
    · refine ⟨"Workflow " ++ hd ++ " returned status " ++ (r hd).status, ?_⟩
      simp [pollRound, parseWorkflowStatus, h200, hf]
    · obtain ⟨i, hmem, hifail⟩ := hex
      rcases List.mem_cons.mp hmem with rfl | hmem
      · exact absurd hifail hf
      · obtain ⟨m, hm⟩ :=
          ih (acc && ((r hd).status = "Succeeded" : Bool))
            (fun j hj => hcode j (List.mem_cons_of_mem hd hj)) ⟨i, hmem, hifail⟩
        refine ⟨m, ?_⟩
        simp [pollRound, parseWorkflowStatus, h200, hf, hm]

/-! ## C2 — a terminal-failure status aborts the whole wait -/

/-- C2: within a polling round, if every tracked id's status response
parses (status code 200) and any id's status lies in the
terminal-failure set `{Failed, Aborted, Aborting}`, the round aborts
with `WorkflowFailedError` (no partial success); a round reports
overall success exactly when every tracked id returned `Succeeded`;
and concretely, with two ids where the first is `Succeeded` and the
second `Failed` in the same round, `wait` raises `WorkflowFailedError`
and never returns success. -/
theorem wait_terminal_failure_aborts (env : Nat → String → StatusResponse)
    (h1 : ∀ n, env n "wf1" = ⟨200, "Succeeded"⟩)
    (h2 : ∀ n, env n "wf2" = ⟨200, "Failed"⟩) (t p fuel : Nat) :
    waitModel env ["wf1", "wf2"] t p (fuel + 1) =
      some (Except.error
        (PyError.workflowFailedError "Workflow wf2 returned status Failed")) ∧
    (∀ (r : String → StatusResponse) (ids : List String) (acc : Bool),
      (∀ id ∈ ids, (r id).status_code = 200) →
      (∃ id ∈ ids, (r id).status ∈ failedStatuses) →
      ∃ m, pollRound r ids acc =
        Except.error (PyError.workflowFailedError m)) ∧
    (∀ (r : String → StatusResponse) (ids : List String),
      pollRound r ids true = Except.ok true ↔
        ∀ id ∈ ids, r id = ⟨200, "Succeeded"⟩) := by
  refine ⟨?_, fun r ids acc => pollRound_terminal_failure r ids acc, ?_⟩
  · simp [waitModel, waitLoop, pollRound, parseWorkflowStatus, h1 0, h2 0,
      failedStatuses]
  · intro r ids
    constructor
    · intro h
      exact (pollRound_ok_true_inv r ids true h).2
    · intro h
      exact pollRound_all_succeeded r ids true h

/-- Witness for C2: the concrete two-workflow scenario (first
`Succeeded`, second `Failed` in the same round) raises
`WorkflowFailedError`. -/
theorem wait_terminal_failure_aborts_witness :
    waitModel envTwoWf ["wf1", "wf2"] 1 30 1 =
      some (Except.error
        (PyError.workflowFailedError "Workflow wf2 returned status Failed")) :=
  (wait_terminal_failure_aborts envTwoWf (fun _ => rfl)
    (fun _ => rfl) 1 30 0).1

theorem pollRound_all_running (r : String → StatusResponse) :
    ∀ (ids : List String) (acc : Bool),
      (∀ id ∈ ids, r id = ⟨200, "Running"⟩) →
      pollRound r ids acc = Except.ok (acc && ids.isEmpty) := by
  intro ids
  induction ids with
  | nil => intro acc _; simp [pollRound]
  | cons hd tl ih =>
    intro acc hall
    have hhd := hall hd (by simp)
    simp only [pollRound, parseWorkflowStatus, hhd]
    have htl := ih false (fun i hi => hall i (List.mem_cons_of_mem hd hi))
    simp [failedStatuses, htl]

/-! ## C3 — timeout check before each round (corrected) -/

/-- Counterexample for C3 as stated: with a status that never leaves
`Running` and a timeout (0 minutes) smaller than the poll interval
(30 s), `wait` does fail after the first round, but by raising the
builtin `Exception` — not a `WorkflowTimeoutError`. -/
theorem wait_timeout_not_timeout_error_counterexample :
    waitModel envRunning ["wf1"] 0 30 2 =
      some (Except.error
        (PyError.exception "Unfinished workflows after 0:00:00 minutes.")) ∧
    ∀ m, PyError.exception "Unfinished workflows after 0:00:00 minutes." ≠
        PyError.workflowTimeoutError m := by
  refine ⟨by decide, ?_⟩
  intro m h
  exact PyError.noConfusion h

/-- C3 as amended: elapsed wall-clock time is compared against the
timeout before each polling round, and once `n * poll_interval`
exceeds the timeout the loop fails at once — raising the builtin
`Exception` reporting unfinished workflows (not a dedicated
`WorkflowTimeoutError` class) — instead of polling again; in
particular, with every status stuck at `Running` (never terminal) and
a timeout smaller than one poll interval, `wait` raises that timeout
`Exception` after a single round of non-terminal observations. -/
theorem wait_timeout_check_before_round
    (env : Nat → String → StatusResponse) (ids : List String) (t p : Nat)
    (hids : ids ≠ [])
    (hrun : ∀ n id, id ∈ ids → env n id = ⟨200, "Running"⟩)
    (hp : t * 60 < p) :
    (∀ (env' : Nat → String → StatusResponse) (ids' : List String)
        (fuel n : Nat), n * p > t * 60 →
        waitLoop env' ids' t p (fuel + 1) n =
          some (Except.error (PyError.exception (timeoutExceptionMsg t)))) ∧
    (∀ fuel, waitModel env ids t p (fuel + 2) =
        some (Except.error (PyError.exception (timeoutExceptionMsg t)))) := by
  have htop : ∀ (env' : Nat → String → StatusResponse) (ids' : List String)
      (fuel n : Nat), n * p > t * 60 →
      waitLoop env' ids' t p (fuel + 1) n =
        some (Except.error (PyError.exception (timeoutExceptionMsg t))) := by
    intro env' ids' fuel n hn
    simp [waitLoop, hn]
  refine ⟨htop, ?_⟩
  intro fuel
  have hround0 : pollRound (env 0) ids true = Except.ok false := by
    have h := pollRound_all_running (env 0) ids true (fun i hi => hrun 0 i hi)
    cases ids with
    | nil => exact absurd rfl hids
    | cons hd tl => simpa using h
  show waitLoop env ids t p ((fuel + 1) + 1) 0 =
    some (Except.error (PyError.exception (timeoutExceptionMsg t)))
  conv_lhs => rw [waitLoop]
  rw [if_neg (by simp), hround0]
  exact htop env ids fuel 1 (by simpa using hp)

/-- Witness for the amended C3: stuck at `Running` with a zero-minute
timeout and a 30-second poll interval, `wait` raises the timeout
`Exception` after one round. -/
theorem wait_timeout_check_before_round_witness :
    waitModel envRunning ["wf1"] 0 30 2 =
      some (Except.error (PyError.exception (timeoutExceptionMsg 0))) :=
  (wait_timeout_check_before_round envRunning ["wf1"] 0 30 (by simp)
    (fun _ _ _ => rfl) (by decide)).2 0

/-! ## C4 — submission retry policy -/

/-- C4: the retry policy wrapping the legacy `CromwellAPI.submit`
(`@retry(reraise=True, wait=wait_exponential(multiplier=1, max=10),
stop=stop_after_delay(20))`) waits 1 time-unit after the first failed
attempt, doubles the wait while below the cap, and caps it at 10
(waits 1, 2, 4, 8, 10, 10 for attempts 1-6); a call that keeps failing
is retried until the total elapsed time reaches the 20-unit budget —
with this schedule exactly attempt 6, whatever the fuel margin — and
the budget exhaustion re-raises the last attempt's failure; failures
before the budget is reached are always retried, so a call failing on
attempts 1-3 and succeeding on attempt 4 returns that success. -/
theorem submit_retry_policy {E A : Type} :
    (backoffWait 1 10 1 = 1 ∧
      (List.range 6).map (fun i => backoffWait 1 10 (i + 1)) =
        [1, 2, 4, 8, 10, 10]) ∧
    (∀ n, 1 ≤ n → 2 ^ n ≤ 10 →
      backoffWait 1 10 (n + 1) = 2 * backoffWait 1 10 n) ∧
    (∀ (e : Nat → E) (k : Nat),
      submitWithRetry (fun n => (Except.error (e n) : Except E A)) (k + 6) =
        some (Except.error (e 6))) ∧
    (∀ (g : Nat → Except E A) (a : A) (k : Nat),
      (∀ n, 1 ≤ n → n ≤ 3 → ∃ e, g n = Except.error e) →
      g 4 = Except.ok a →
      submitWithRetry g (k + 4) = some (Except.ok a)) := by
  refine ⟨⟨by decide, by decide⟩, ?_, ?_, ?_⟩
  · intro n h1 h2
    have hn1 : n - 1 + 1 = n := Nat.succ_pred_eq_of_pos h1
    have hle : 2 ^ (n - 1) ≤ 10 :=
      le_trans (Nat.pow_le_pow_right (by norm_num) (Nat.sub_le n 1)) h2
    have h2n : 2 * 2 ^ (n - 1) = 2 ^ n := by rw [← pow_succ', hn1]
    calc backoffWait 1 10 (n + 1) = min (2 ^ n) 10 := by
          simp [backoffWait, Nat.add_sub_cancel]
      _ = 2 ^ n := min_eq_left h2
      _ = 2 * 2 ^ (n - 1) := h2n.symm
      _ = 2 * backoffWait 1 10 n := by simp [backoffWait, min_eq_left hle]
  · intro e k
    show retryCall (fun n => (Except.error (e n) : Except E A)) 1 10 20
        ((((((k + 1) + 1) + 1) + 1) + 1) + 1) 1 0 = some (Except.error (e 6))
    simp [retryCall, backoffWait]
  · intro g a k hfail hok
    obtain ⟨e1, h1⟩ := hfail 1 (by norm_num) (by norm_num)
    obtain ⟨e2, h2⟩ := hfail 2 (by norm_num) (by norm_num)
    obtain ⟨e3, h3⟩ := hfail 3 (by norm_num) (by norm_num)
    show retryCall g 1 10 20 ((((k + 1) + 1) + 1) + 1) 1 0 =
      some (Except.ok a)
    simp [retryCall, backoffWait, h1, h2, h3, hok]

/-- Witness for C4: an always-failing call under the configured policy
is attempted six times and the sixth failure is re-raised. -/
theorem submit_retry_policy_witness :
    submitWithRetry (fun n => (Except.error n : Except Nat Unit)) 6 =
      some (Except.error 6) :=
  (@submit_retry_policy Nat Unit).2.2.1 (fun n => n) 0

/-! ## C5 — dependencies shapes in prepare_workflow_manifest (corrected) -/

theorem strEndsWith_zip_ne_empty (s : String)
    (h : strEndsWith s ".zip" = true) : s ≠ "" := by
  intro he
  rw [he] at h
  exact absurd h (by decide)

/-- Counterexample for C5 as stated: the empty string is a string
reference not ending in `.zip`, yet `prepare_workflow_manifest` raises
no error for it — the falsy value fails the `if dependencies:` guard
and the manifest is built without any dependencies part. -/
theorem prepare_manifest_empty_dependency_counterexample :
    strEndsWith "" ".zip" = false ∧
    prepare_workflow_manifest envBytes (.pystr "wf.wdl") none none
        (some (.strRef "")) none none false =
      Except.ok [("workflowSource", ManifestPart.file (PyFile.buf "bytes:wf.wdl")),
        ("workflowOnHold", ManifestPart.scalar "false")] ∧
    ∀ e, prepare_workflow_manifest envBytes (.pystr "wf.wdl") none none
        (some (.strRef "")) none none false ≠ Except.error e := by
  refine ⟨by decide, by decide, ?_⟩
  intro e h
  rw [show prepare_workflow_manifest envBytes (.pystr "wf.wdl") none none
      (some (.strRef "")) none none false =
      Except.ok [("workflowSource", ManifestPart.file (PyFile.buf "bytes:wf.wdl")),
        ("workflowOnHold", ManifestPart.scalar "false")] from by decide] at h
  exact Except.noConfusion h

/-- C5 as amended: `prepare_workflow_manifest` handles `dependencies`
by shape — every non-empty string reference not ending in `.zip` is
rejected with a `ValueError` (the empty string is falsy and is treated
as absent); a string ending in `.zip`, or a one-element list whose
sole element ends in `.zip`, has the referenced archive resolved and
attached unchanged as the `workflowDependencies` part; every other
non-empty list has each element resolved and bundled into one
synthesized zip, whose entries are named by last path segment. -/
theorem prepare_manifest_dependencies_shapes (env : String → String)
    (w : String) :
    (∀ s, s ≠ "" → strEndsWith s ".zip" = false →
      prepare_workflow_manifest env (.pystr w) none none
          (some (.strRef s)) none none false =
        Except.error (PyError.valueError depsValueErrorMsg)) ∧
    (∀ s, strEndsWith s ".zip" = true →
      prepare_workflow_manifest env (.pystr w) none none
          (some (.strRef s)) none none false =
        Except.ok [("workflowSource", ManifestPart.file (PyFile.buf (env w))),
          ("workflowDependencies", ManifestPart.file (PyFile.buf (env s))),
          ("workflowOnHold", ManifestPart.scalar "false")]) ∧
    (∀ z, strEndsWith z ".zip" = true →
      prepare_workflow_manifest env (.pystr w) none none
          (some (.listRef [z])) none none false =
        Except.ok [("workflowSource", ManifestPart.file (PyFile.buf (env w))),
          ("workflowDependencies", ManifestPart.file (PyFile.buf (env z))),
          ("workflowOnHold", ManifestPart.scalar "false")]) ∧
    (∀ l, l ≠ [] →
      (l.length = 1 && strEndsWith (l.headD "") ".zip") = false →
      prepare_workflow_manifest env (.pystr w) none none
          (some (.listRef l)) none none false =
        Except.ok [("workflowSource", ManifestPart.file (PyFile.buf (env w))),
          ("workflowDependencies",
            ManifestPart.zips (l.map (fun u => (lastSegment u, env u)))),
          ("workflowOnHold", ManifestPart.scalar "false")]) := by
  refine ⟨?_, ?_, ?_, ?_⟩
  · intro s hne hends
    simp [prepare_workflow_manifest, resolveDependencies,
      download_to_BytesIO_if_string, downloadModel, depsTruthy, inputsTruthy,
      bind, Except.bind, Except.map, hends, hne]
  · intro s hends
    have hne := strEndsWith_zip_ne_empty s hends
    simp [prepare_workflow_manifest, resolveDependencies,
      download_to_BytesIO_if_string, downloadModel, depsTruthy, inputsTruthy,
      bind, Except.bind, Except.map, hends, hne]
  · intro z hends
    simp [prepare_workflow_manifest, resolveDependencies,
      download_to_BytesIO_if_string, downloadModel, depsTruthy, inputsTruthy,
      bind, Except.bind, Except.map, hends]
  · intro l hne hshape
    have hcond : ¬(l.length = 1 ∧ strEndsWith (l.headD "") ".zip" = true) := by
      rintro ⟨h1, h2⟩
      rw [h1, h2] at hshape
      simp at hshape
    rw [List.headD_eq_head?] at hcond
    simp [prepare_workflow_manifest, resolveDependencies, make_zip_in_memory,
      download_to_map, download_to_BytesIO_if_string, downloadModel,
      depsTruthy, inputsTruthy, bind, Except.bind, Except.map, Function.comp,
      hne, hcond]

/-- Witness for the amended C5: a bare non-zip string is rejected, a
one-element non-zip list is bundled into a synthesized zip. -/
theorem prepare_manifest_dependencies_shapes_witness :
    prepare_workflow_manifest envBytes (.pystr "wf.wdl") none none
        (some (.strRef "not_a_zip.wdl")) none none false =
      Except.error (PyError.valueError depsValueErrorMsg) ∧
    prepare_workflow_manifest envBytes (.pystr "wf.wdl") none none
        (some (.listRef ["not_a_zip.wdl"])) none none false =
      Except.ok [("workflowSource", ManifestPart.file (PyFile.buf "bytes:wf.wdl")),
        ("workflowDependencies",
          ManifestPart.zips [("not_a_zip.wdl", "bytes:not_a_zip.wdl")]),
        ("workflowOnHold", ManifestPart.scalar "false")] :=
  ⟨(prepare_manifest_dependencies_shapes envBytes "wf.wdl").1 "not_a_zip.wdl"
      (by decide) (by decide),
   (prepare_manifest_dependencies_shapes envBytes "wf.wdl").2.2.2
      ["not_a_zip.wdl"] (by decide) (by decide)⟩

/-! ## C6 — JES options augmentation preserves caller options -/

theorem lookup_cons_self (a : String) (b : JVal) (l : OptionsDict) :
    List.lookup a ((a, b) :: l) = some b := by simp [List.lookup]

theorem lookup_cons_ne (k a : String) (b : JVal) (l : OptionsDict)
    (h : k ≠ a) : List.lookup k ((a, b) :: l) = List.lookup k l := by
  simp [List.lookup, beq_eq_false_iff_ne.mpr h]

theorem lookup_map_set_self (k : String) (v : JVal) :
    ∀ d : OptionsDict, d.any (fun p => p.1 = k) = true →
      (d.map (fun p => if p.1 = k then (k, v) else p)).lookup k = some v := by
  intro d
  induction d with
  | nil => simp
  | cons hd tl ih =>
    obtain ⟨a, b⟩ := hd
    intro hany
    rw [List.map_cons]
    by_cases h : a = k
    · rw [show (if ((a, b) : String × JVal).1 = k then (k, v) else (a, b)) =
          (k, v) from if_pos h]
      exact lookup_cons_self k v _
    · rw [show (if ((a, b) : String × JVal).1 = k then (k, v) else (a, b)) =
          (a, b) from if_neg h]
      rw [lookup_cons_ne k a b _ (Ne.symm h)]
      exact ih (by simpa [List.any_cons, h] using hany)

theorem lookup_append_single_self (k : String) (v : JVal) :
    ∀ d : OptionsDict, d.any (fun p => p.1 = k) = false →
      (d ++ [(k, v)]).lookup k = some v := by
  intro d
  induction d with
  | nil => exact fun _ => lookup_cons_self k v []
  | cons hd tl ih =>
    obtain ⟨a, b⟩ := hd
    intro hany
    have h1 : ¬a = k := by
      intro h
      simp [List.any_cons, h] at hany
    have h2 : tl.any (fun p => p.1 = k) = false := by
      simp [List.any_cons] at hany
      simpa using hany.2
    rw [List.cons_append, lookup_cons_ne k a b _ (Ne.symm h1)]
    exact ih h2

theorem dictSet_lookup_self (d : OptionsDict) (k : String) (v : JVal) :
    (dictSet d k v).lookup k = some v := by
  unfold dictSet
  by_cases h : d.any (fun p => p.1 = k)
  · rw [if_pos h]
    exact lookup_map_set_self k v d h
  · rw [if_neg h]
    exact lookup_append_single_self k v d (Bool.eq_false_iff.mpr h)

theorem dictSet_lookup_ne (d : OptionsDict) (k k' : String) (v : JVal)
    (hne : k ≠ k') : (dictSet d k' v).lookup k = d.lookup k := by
  unfold dictSet
  by_cases h : d.any (fun p => p.1 = k')
  · rw [if_pos h]
    clear h
    induction d with
    | nil => rfl
    | cons hd tl ih =>
      obtain ⟨a, b⟩ := hd
      rw [List.map_cons]
      by_cases hh : a = k'
      · rw [show (if ((a, b) : String × JVal).1 = k' then (k', v) else (a, b)) =
            (k', v) from if_pos hh]
        rw [lookup_cons_ne k k' v _ hne, lookup_cons_ne k a b _ (hh ▸ hne)]
        exact ih
      · rw [show (if ((a, b) : String × JVal).1 = k' then (k', v) else (a, b)) =
            (a, b) from if_neg hh]
        by_cases hb : k = a
        · subst hb
          rw [lookup_cons_self, lookup_cons_self]
        · rw [lookup_cons_ne k a b _ hb, lookup_cons_ne k a b _ hb]
          exact ih
  · rw [if_neg h]
    clear h
    induction d with
    | nil => exact lookup_cons_ne k k' v [] hne
    | cons hd tl ih =>
      obtain ⟨a, b⟩ := hd
      rw [List.cons_append]
      by_cases hb : k = a
      · subst hb
        rw [lookup_cons_self, lookup_cons_self]
      · rw [lookup_cons_ne k a b _ hb, lookup_cons_ne k a b _ hb]
        exact ih

/-- C6: when the auth context carries (non-empty) service-account key
content, the submission step replaces the options part with an
augmented dictionary in which the four backend keys are set — the
execution storage location defaulted from the key's project id (submit
passes no explicit bucket), the project id, the key content serialized
as a nested JSON string, and the service-account email — while every
caller-supplied option under any other key keeps its value; with an
explicit non-empty bucket, the storage location is that bucket
instead. -/
theorem submit_jes_options_augmentation (auth : CromwellAuth)
    (key : List (String × String)) (opts : OptionsDict) (proj email : String)
    (hk : auth.service_key_content = some key) (hne : key.isEmpty = false)
    (hp : key.lookup "project_id" = some proj)
    (he : key.lookup "client_email" = some email) :
    ∃ d, submitAttachJesOptions auth (some opts) = Except.ok (some d) ∧
      d.lookup "jes_gcs_root" =
        some (JVal.jstr (defaultExecutionBucket proj)) ∧
      d.lookup "google_project" = some (JVal.jstr proj) ∧
      d.lookup "user_service_account_json" =
        some (JVal.jstr (jsonDumpsFlat key)) ∧
      d.lookup "google_compute_service_account" = some (JVal.jstr email) ∧
      (∀ k, k ≠ "jes_gcs_root" → k ≠ "google_project" →
        k ≠ "user_service_account_json" →
        k ≠ "google_compute_service_account" →
        d.lookup k = opts.lookup k) ∧
      (∀ b, b ≠ "" →
        ∃ d2, compose_oauth_options_for_jes_backend_cromwell key (some opts)
            (some b) = Except.ok d2 ∧
          d2.lookup "jes_gcs_root" = some (JVal.jstr b)) := by
  have hcompose : ∀ (eb : Option String) (bucket : String),
      (match eb with
        | some b => if b = "" then defaultExecutionBucket proj else b
        | none => defaultExecutionBucket proj) = bucket →
      compose_oauth_options_for_jes_backend_cromwell key (some opts) eb =
        Except.ok (dictUpdate opts
          [("jes_gcs_root", JVal.jstr bucket),
           ("google_project", JVal.jstr proj),
           ("user_service_account_json", JVal.jstr (jsonDumpsFlat key)),
           ("google_compute_service_account", JVal.jstr email)]) := by
    intro eb bucket hb
    subst hb
    unfold compose_oauth_options_for_jes_backend_cromwell
    rw [hp, he]
    rfl
  have hupd : ∀ bucket, dictUpdate opts
      [("jes_gcs_root", JVal.jstr bucket),
       ("google_project", JVal.jstr proj),
       ("user_service_account_json", JVal.jstr (jsonDumpsFlat key)),
       ("google_compute_service_account", JVal.jstr email)] =
      dictSet (dictSet (dictSet (dictSet opts "jes_gcs_root" (JVal.jstr bucket))
        "google_project" (JVal.jstr proj)) "user_service_account_json"
        (JVal.jstr (jsonDumpsFlat key))) "google_compute_service_account"
        (JVal.jstr email) := fun _ => rfl
  refine ⟨dictUpdate opts
      [("jes_gcs_root", JVal.jstr (defaultExecutionBucket proj)),
       ("google_project", JVal.jstr proj),
       ("user_service_account_json", JVal.jstr (jsonDumpsFlat key)),
       ("google_compute_service_account", JVal.jstr email)], ?_, ?_, ?_, ?_, ?_, ?_, ?_⟩
  · unfold submitAttachJesOptions
    rw [hk]
    simp only [hne, Bool.false_eq_true, if_false]
    rw [hcompose none _ rfl]
    rfl
  · rw [hupd]
    rw [dictSet_lookup_ne _ _ _ _ (by decide), dictSet_lookup_ne _ _ _ _ (by decide),
      dictSet_lookup_ne _ _ _ _ (by decide), dictSet_lookup_self]
  · rw [hupd]
    rw [dictSet_lookup_ne _ _ _ _ (by decide), dictSet_lookup_ne _ _ _ _ (by decide),
      dictSet_lookup_self]
  · rw [hupd]
    rw [dictSet_lookup_ne _ _ _ _ (by decide), dictSet_lookup_self]
  · rw [hupd]
    rw [dictSet_lookup_self]
  · intro k h1 h2 h3 h4
    rw [hupd]
    rw [dictSet_lookup_ne _ _ _ _ h4, dictSet_lookup_ne _ _ _ _ h3,
      dictSet_lookup_ne _ _ _ _ h2, dictSet_lookup_ne _ _ _ _ h1]
  · intro b hb
    refine ⟨_, hcompose (some b) b (by simp [hb]), ?_⟩
    rw [hupd]
    rw [dictSet_lookup_ne _ _ _ _ (by decide), dictSet_lookup_ne _ _ _ _ (by decide),
      dictSet_lookup_ne _ _ _ _ (by decide), dictSet_lookup_self]

/-- Witness for C6: a concrete OAuth-shaped context and caller options;
the stale `google_project` option is overwritten, the unrelated
`custom_option` survives. -/
theorem submit_jes_options_augmentation_witness :
    ∃ d, submitAttachJesOptions authW (some optsW) = Except.ok (some d) ∧
      d.lookup "jes_gcs_root" =
        some (JVal.jstr (defaultExecutionBucket "proj-1")) ∧
      d.lookup "google_project" = some (JVal.jstr "proj-1") ∧
      d.lookup "user_service_account_json" =
        some (JVal.jstr (jsonDumpsFlat keyW)) ∧
      d.lookup "google_compute_service_account" =
        some (JVal.jstr "sa@proj-1.iam") ∧
      (∀ k, k ≠ "jes_gcs_root" → k ≠ "google_project" →
        k ≠ "user_service_account_json" →
        k ≠ "google_compute_service_account" →
        d.lookup k = optsW.lookup k) ∧
      (∀ b, b ≠ "" →
        ∃ d2, compose_oauth_options_for_jes_backend_cromwell keyW (some optsW)
            (some b) = Except.ok d2 ∧
          d2.lookup "jes_gcs_root" = some (JVal.jstr b)) :=
  submit_jes_options_augmentation authW keyW optsW "proj-1" "sa@proj-1.iam"
    rfl (by decide) (by decide) (by decide)

/-! ## C7 — valid label maps pass the validator (corrected) -/

theorem labelErrMsg_all_empty :
    ∀ (labels : List (String × String)) (acc : String),
      (∀ kv ∈ labels, labelPairErrMsg kv = "") →
      labels.foldl (fun a kv => a ++ labelPairErrMsg kv) acc = acc := by
  intro labels
  induction labels with
  | nil => intro acc _; rfl
  | cons hd tl ih =>
    intro acc h
    simp only [List.foldl_cons]
    rw [h hd (by simp)]
    simp only [String.append_empty]
    exact ih acc (fun kv hk => h kv (List.mem_cons_of_mem hd hk))

/-- Counterexample for C7 as stated, on two fronts.  In the map
`{"a": "A"}` the key `"a"` fully matches the claim's key pattern and
both lengths are at most 63, yet the validator raises — the claim
omits the value-pattern requirement, and the value `"A"` fails the
value regex.  And the key `"a-"` fully matches the claim's pattern
`^[a-z][-a-z0-9]*[a-z0-9]?$` while its value `""` is valid, yet the
validator raises — the code's key regex `[a-z]([-a-z0-9]*[a-z0-9])?`
forbids a trailing hyphen, which the claim's pattern admits. -/
theorem validate_label_claim_premise_insufficient_counterexample :
    (claimKeyMatch "a" = true ∧ "a".length ≤ 63 ∧ "A".length ≤ 63 ∧
      validateCromwellLabel [("a", "A")] =
        Except.error (PyError.valueError
          "Invalid label: A did not match the regex ([a-z0-9]*[-a-z0-9]*[a-z0-9])?.\n")) ∧
    (claimKeyMatch "a-" = true ∧ valueFullmatch "" = true ∧
      keyFullmatch "a-" = false ∧
      validateCromwellLabel [("a-", "")] =
        Except.error (PyError.valueError
          "Invalid label: a- did not match the regex [a-z]([-a-z0-9]*[a-z0-9])?.\n")) := by
  decide

/-- C7 as amended: for every label map in which every key fully
matches the key regex `[a-z]([-a-z0-9]*[a-z0-9])?`, every value fully
matches the value regex `([a-z0-9]*[-a-z0-9]*[a-z0-9])?`, and every
key and value has length at most 63, the label validator returns
without raising. -/
theorem validate_label_valid_maps_pass (labels : List (String × String))
    (h : ∀ kv ∈ labels, keyFullmatch kv.1 = true ∧ valueFullmatch kv.2 = true ∧
      kv.1.length ≤ 63 ∧ kv.2.length ≤ 63) :
    validateCromwellLabel labels = Except.ok () := by
  have hpair : ∀ kv ∈ labels, labelPairErrMsg kv = "" := by
    intro kv hk
    obtain ⟨h1, h2, h3, h4⟩ := h kv hk
    simp [labelPairErrMsg, contentChecker, lengthChecker, h1, h2,
      cromwellLabelLength, Nat.not_lt.mpr h3, Nat.not_lt.mpr h4]
  have hmsg : labelErrMsg labels = "" :=
    labelErrMsg_all_empty labels "" hpair
  simp [validateCromwellLabel, hmsg]

/-- Witness for the amended C7: a representative conforming map passes
the validator. -/
theorem validate_label_valid_maps_pass_witness :
    validateCromwellLabel
        [("cromwell-workflow-id", "cromwell-abc-123"), ("q", "")] =
      Except.ok () :=
  validate_label_valid_maps_pass
    [("cromwell-workflow-id", "cromwell-abc-123"), ("q", "")] (by decide)

/-! ## C8 — the validator accumulates every violation -/

theorem strInfix_foldl (f : (String × String) → String) (x : String) :
    ∀ (l : List (String × String)) (acc : String), strInfix x acc →
      strInfix x (l.foldl (fun a y => a ++ f y) acc) := by
  intro l
  induction l with
  | nil => exact fun acc h => h
  | cons hd tl ih =>
    intro acc h
    simp only [List.foldl_cons]
    apply ih
    obtain ⟨s, t, hst⟩ := h
    exact ⟨s, t ++ (f hd).data, by
      rw [String.data_append, ← hst]
      simp⟩

theorem strInfix_pair_foldl (kv : String × String) :
    ∀ (l : List (String × String)) (acc : String), kv ∈ l →
      strInfix (labelPairErrMsg kv)
        (l.foldl (fun a y => a ++ labelPairErrMsg y) acc) := by
  intro l
  induction l with
  | nil => intro acc h; cases h
  | cons hd tl ih =>
    intro acc h
    simp only [List.foldl_cons]
    rcases List.mem_cons.mp h with rfl | h
    · exact strInfix_foldl _ _ tl _ ⟨acc.data, [], by simp [String.data_append]⟩
    · exact ih _ h

theorem strInfix_trans {a b c : String} (h1 : strInfix a b)
    (h2 : strInfix b c) : strInfix a c := List.IsInfix.trans h1 h2

/-- C8: whenever the accumulated message is non-empty (some key or
value is non-conforming), the validator raises a single `ValueError`
whose message is exactly the concatenation, over every key/value pair
in order, of that pair's violation lines — so it contains the
violation line for every failing key pattern, failing value pattern,
over-long key and over-long value across all pairs, never just the
first. -/
theorem validate_label_accumulates_all_violations
    (labels : List (String × String)) (h : labelErrMsg labels ≠ "") :
    validateCromwellLabel labels =
      Except.error (PyError.valueError (labelErrMsg labels)) ∧
    labelErrMsg labels = String.join (labels.map labelPairErrMsg) ∧
    ∀ kv ∈ labels,
      (keyFullmatch kv.1 = false →
        strInfix (contentChecker keyFullmatch cromwellLabelKeyRegex kv.1)
          (labelErrMsg labels)) ∧
      (valueFullmatch kv.2 = false →
        strInfix (contentChecker valueFullmatch cromwellLabelValueRegex kv.2)
          (labelErrMsg labels)) ∧
      (cromwellLabelLength < kv.1.length →
        strInfix (lengthChecker cromwellLabelLength kv.1)
          (labelErrMsg labels)) ∧
      (cromwellLabelLength < kv.2.length →
        strInfix (lengthChecker cromwellLabelLength kv.2)
          (labelErrMsg labels)) := by
  refine ⟨by simp [validateCromwellLabel, h], ?_, ?_⟩
  · unfold labelErrMsg String.join
    rw [List.foldl_map]
  · intro kv hkv
    have hpair : strInfix (labelPairErrMsg kv) (labelErrMsg labels) :=
      strInfix_pair_foldl kv labels "" hkv
    have h1 : strInfix (contentChecker keyFullmatch cromwellLabelKeyRegex kv.1)
        (labelPairErrMsg kv) :=
      ⟨[], (contentChecker valueFullmatch cromwellLabelValueRegex kv.2 ++
        lengthChecker cromwellLabelLength kv.1 ++
        lengthChecker cromwellLabelLength kv.2).data, by
          simp [labelPairErrMsg, String.data_append]⟩
    have h2 : strInfix (contentChecker valueFullmatch cromwellLabelValueRegex kv.2)
        (labelPairErrMsg kv) :=
      ⟨(contentChecker keyFullmatch cromwellLabelKeyRegex kv.1).data,
        (lengthChecker cromwellLabelLength kv.1 ++
         lengthChecker cromwellLabelLength kv.2).data, by
          simp [labelPairErrMsg, String.data_append]⟩
    have h3 : strInfix (lengthChecker cromwellLabelLength kv.1)
        (labelPairErrMsg kv) :=
      ⟨(contentChecker keyFullmatch cromwellLabelKeyRegex kv.1 ++
        contentChecker valueFullmatch cromwellLabelValueRegex kv.2).data,
        (lengthChecker cromwellLabelLength kv.2).data, by
          simp [labelPairErrMsg, String.data_append]⟩
    have h4 : strInfix (lengthChecker cromwellLabelLength kv.2)
        (labelPairErrMsg kv) :=
      ⟨(contentChecker keyFullmatch cromwellLabelKeyRegex kv.1 ++
        contentChecker valueFullmatch cromwellLabelValueRegex kv.2 ++
        lengthChecker cromwellLabelLength kv.1).data, [], by
          simp [labelPairErrMsg, String.data_append]⟩
    exact ⟨fun _ => strInfix_trans h1 hpair, fun _ => strInfix_trans h2 hpair,
      fun _ => strInfix_trans h3 hpair, fun _ => strInfix_trans h4 hpair⟩

/-- Witness for C8: a map with a 64-character key (and a second pair
violating both patterns) raises a `ValueError` carrying the full
accumulated message. -/
theorem validate_label_accumulates_all_violations_witness :
    validateCromwellLabel
        [("aaaaaaaaaaaaaaaaaaaaaaaaaaaaaaaaaaaaaaaaaaaaaaaaaaaaaaaaaaaaaaaa",
          "ok"), ("B", "UP")] =
      Except.error (PyError.valueError (labelErrMsg
        [("aaaaaaaaaaaaaaaaaaaaaaaaaaaaaaaaaaaaaaaaaaaaaaaaaaaaaaaaaaaaaaaa",
          "ok"), ("B", "UP")])) :=
  (validate_label_accumulates_all_violations
    [("aaaaaaaaaaaaaaaaaaaaaaaaaaaaaaaaaaaaaaaaaaaaaaaaaaaaaaaaaaaaaaaa",
      "ok"), ("B", "UP")] (by decide)).1

/-! ## C10 — resource-loading type check (corrected) -/

/-- Counterexample for C10 as stated: `None` is neither a string nor a
byte buffer, yet `_download_to_BytesIO_if_string` returns it unchanged
instead of failing — `None` is falsy, and the `elif isinstance(file,
io.BytesIO) or not file` branch returns every falsy value as-is. -/
theorem download_type_check_counterexample :
    download_to_BytesIO_if_string envBytes PyFile.pyNone =
      Except.ok PyFile.pyNone ∧
    ∀ e, download_to_BytesIO_if_string envBytes PyFile.pyNone ≠
        Except.error e := by
  refine ⟨by decide, ?_⟩
  intro e h
  rw [show download_to_BytesIO_if_string envBytes PyFile.pyNone =
      Except.ok PyFile.pyNone from by decide] at h
  exact Except.noConfusion h

/-- C10 as amended: in `_download_to_BytesIO_if_string`, a truthy
reference that is neither a string nor a byte buffer fails with a
`TypeError`; a falsy non-string reference (`None`, `0`) is returned
unchanged; a byte buffer is returned unchanged; and a string is
resolved to bytes wrapped in a fresh buffer.  In the underlying
`download`, every non-string reference (truthy or not, buffers
included) fails with a `TypeError`. -/
theorem download_type_check (env : String → String) :
    (∀ f : PyFile, f.truthy = true → (∀ s, f ≠ PyFile.pystr s) →
      (∀ b, f ≠ PyFile.buf b) →
      download_to_BytesIO_if_string env f =
        Except.error (PyError.typeError
          "Please make sure to pass in Union[str, io.BytesIO] types!")) ∧
    (∀ f : PyFile, f.truthy = false → (∀ s, f ≠ PyFile.pystr s) →
      download_to_BytesIO_if_string env f = Except.ok f) ∧
    (∀ b, download_to_BytesIO_if_string env (PyFile.buf b) =
      Except.ok (PyFile.buf b)) ∧
    (∀ s, download_to_BytesIO_if_string env (PyFile.pystr s) =
      Except.ok (PyFile.buf (env s))) ∧
    (∀ f : PyFile, (∀ s, f ≠ PyFile.pystr s) →
      downloadModel env f =
        Except.error (PyError.typeError
          ("The url/path must be a (str) type, not " ++ f.typeRepr ++ "!"))) := by
  refine ⟨?_, ?_, fun b => rfl, fun s => rfl, ?_⟩
  · intro f htruthy hstr hbuf
    cases f with
    | pystr s => exact absurd rfl (hstr s)
    | buf b => exact absurd rfl (hbuf b)
    | pyNone => exact absurd htruthy (by decide)
    | pyInt n =>
      simp only [download_to_BytesIO_if_string, htruthy]
      rfl
  · intro f hfalsy hstr
    cases f with
    | pystr s => exact absurd rfl (hstr s)
    | buf b => exact absurd hfalsy (by simp [PyFile.truthy])
    | pyNone => rfl
    | pyInt n =>
      simp only [download_to_BytesIO_if_string, hfalsy]
      rfl
  · intro f hstr
    cases f with
    | pystr s => exact absurd rfl (hstr s)
    | buf b => rfl
    | pyNone => rfl
    | pyInt n => rfl

/-- Witness for the amended C10: a truthy `int` is rejected with a
`TypeError` by both loaders; `None` passes through unchanged. -/
theorem download_type_check_witness :
    download_to_BytesIO_if_string envBytes (PyFile.pyInt 5) =
      Except.error (PyError.typeError
        "Please make sure to pass in Union[str, io.BytesIO] types!") ∧
    download_to_BytesIO_if_string envBytes PyFile.pyNone =
      Except.ok PyFile.pyNone :=
  ⟨(download_type_check envBytes).1 (PyFile.pyInt 5) (by decide)
      (fun s h => PyFile.noConfusion h) (fun b h => PyFile.noConfusion h),
   (download_type_check envBytes).2.1 PyFile.pyNone (by decide)
      (fun s h => PyFile.noConfusion h)⟩
